import Mathlib

/-!
Verification of the sunthalpy Home Assistant integration.

This file gives a shallow embedding of the core of the repository
(custom_components/sunthalpy): the API client error wrapper
(`api.py:_api_wrapper`, `_verify_response_or_raise`), the derived-metrics
functions (`_get_dew_point`, `_get_aero_state`), the fetch-and-publish cycle
(`async_get_data`), the integral accumulator (`sensor.py:IntegralSensor` and
`DailyIntegralSensor`), and the entity read accessors
(switch / binary_sensor / number `is_on` / `native_value` and
`IntegrationBlueprintSensor._get_sensor_data`).

Modelling conventions:
- Python numbers are embedded as `Int` (JSON integers) and `Rat`
  (JSON decimal floats); floats produced by transcendental computation
  (the dew point) are embedded as `Real`.
- Python `None` results of `dict.get(key, None)` are `Option`.
- The payload nesting `{obj: {lastMeasure: {address: value}}}` is flattened
  to a map from address to optional value, because every access in the
  source goes through `.get("obj", {}).get("lastMeasure", {})` with total
  defaults.
- Exceptions are `Except PyErr`; datetimes are rationals counting seconds,
  so that one hour is 3600.
-/

/-- Python exception classes that occur in the source, including the three
integration error classes of api.py (`IntegrationBlueprintApiClientError`,
`...CommunicationError`, `...AuthenticationError`) and the library/builtin
exceptions the except clauses dispatch on. -/
inductive PyErr where
  | timeoutError
  | aiohttpClientError
  | socketGaierror
  | authenticationError
  | communicationError
  | clientError
  | typeError
  | valueError
  | zeroDivisionError
  | attributeError
  | otherError
deriving DecidableEq

/-- Values stored in a lastMeasure payload. JSON integers arrive as Python
int, decimal JSON numbers as float (represented exactly by a rational),
strings as str. Floats produced by real-valued computation (the dew point)
are carried by `rfloat`. -/
inductive PyVal where
  | int (n : ℤ)
  | float (q : ℚ)
  | str (s : String)
  | rfloat (r : ℝ)

/-- Python truthiness of a value: zero numbers and the empty string are
falsy. -/
noncomputable def pyTruthy : PyVal → Bool
  | .int n => decide (n ≠ 0)
  | .float q => decide (q ≠ 0)
  | .str s => decide (s ≠ "")
  | .rfloat r => decide (r ≠ 0)

/-- Python truthiness of an optional value: `None` is falsy. -/
noncomputable def pyTruthyOpt : Option PyVal → Bool
  | none => false
  | some v => pyTruthy v

/-- Conversion of a value to a real number, as used by Python arithmetic on
numbers; arithmetic on a str raises TypeError. -/
def pyToReal : PyVal → Except PyErr ℝ
  | .int n => .ok (n : ℝ)
  | .float q => .ok (q : ℝ)
  | .rfloat r => .ok r
  | .str _ => .error .typeError

/-- Python `==` between two payload values: numeric comparison across
int/float, string equality between strings, and `False` across types
(Python `==` does not raise). -/
noncomputable def pyEq : PyVal → PyVal → Bool
  | .int m, .int n => decide (m = n)
  | .int m, .float q => decide ((m : ℚ) = q)
  | .int m, .rfloat r => decide ((m : ℝ) = r)
  | .float p, .int n => decide (p = (n : ℚ))
  | .float p, .float q => decide (p = q)
  | .float p, .rfloat r => decide ((p : ℝ) = r)
  | .rfloat r, .int n => decide (r = (n : ℝ))
  | .rfloat r, .float q => decide (r = (q : ℝ))
  | .rfloat r, .rfloat s => decide (r = s)
  | .str a, .str b => decide (a = b)
  | .str _, _ => false
  | _, .str _ => false

/-- Python `>` between two payload values: numeric comparison, and a
TypeError when a str meets a number. -/
noncomputable def pyGt : PyVal → PyVal → Except PyErr Bool
  | .str _, _ => .error .typeError
  | _, .str _ => .error .typeError
  | .int m, .int n => .ok (decide (n < m))
  | .int m, .float q => .ok (decide (q < (m : ℚ)))
  | .int m, .rfloat r => .ok (decide (r < (m : ℝ)))
  | .float p, .int n => .ok (decide ((n : ℚ) < p))
  | .float p, .float q => .ok (decide (q < p))
  | .float p, .rfloat r => .ok (decide (r < (p : ℝ)))
  | .rfloat r, .int n => .ok (decide ((n : ℝ) < r))
  | .rfloat r, .float q => .ok (decide ((q : ℝ) < r))
  | .rfloat r, .rfloat s => .ok (decide (s < r))

/-- Python `value + n` for an integer literal `n`: numeric addition, and a
TypeError on a str. -/
def pyAddInt : PyVal → ℤ → Except PyErr PyVal
  | .int m, n => .ok (.int (m + n))
  | .float q, n => .ok (.float (q + (n : ℚ)))
  | .rfloat r, n => .ok (.rfloat (r + (n : ℝ)))
  | .str _, _ => .error .typeError

/-- Python `str()` of an optional payload value. `str(None) = "None"`,
integers print in decimal. A float never prints as a bare integer literal
(its repr always contains a decimal point or an exponent), which is the only
property the source relies on; the float cases therefore return markers
that contain a dot. -/
def pyStrOfOpt : Option PyVal → String
  | none => "None"
  | some (.int n) => toString n
  | some (.float q) => if q.den = 1 then toString q.num ++ ".0" else toString q
  | some (.str s) => s
  | some (.rfloat _) => "<float.repr>"

section IntegralAccumulator

/-- Mutable state of `IntegralSensor` (sensor.py): the accumulated total
`self._state`, `self._last_value`, `self._last_update`, and the reentrancy
flag `self._is_updating`. Timestamps are seconds, values are the source
sensor readings. -/
structure IntegralState where
  state : ℚ
  last_value : Option ℚ
  last_update : Option ℚ
  is_updating : Bool
deriving DecidableEq

/-- State set up by `IntegralSensor.__init__`: total 0, no last value, no
last update, not updating. -/
def initial_integral_state : IntegralState :=
  { state := 0, last_value := none, last_update := none, is_updating := false }

/-- `IntegralSensor._update_integral`: if both `_last_value` and
`_last_update` are set, add the trapezoidal increment
`((last_value + current_value) / 2) * time_diff` with `time_diff` the
elapsed time in hours; in every case record the current value and time. -/
def update_integral (s : IntegralState) (current_value current_time : ℚ) :
    IntegralState :=
  match s.last_value, s.last_update with
  | some lv, some lu =>
      let time_diff := (current_time - lu) / 3600
      let increment := ((lv + current_value) / 2) * time_diff
      { s with
        state := s.state + increment
        last_value := some current_value
        last_update := some current_time }
  | _, _ =>
      { s with last_value := some current_value, last_update := some current_time }

/-- `IntegralSensor._async_update_with_lock`: if `_is_updating` is set the
trigger returns immediately; otherwise it sets the flag, runs
`_update_integral`, and clears the flag in the `finally` block. -/
def async_update_with_lock (s : IntegralState) (current_value current_time : ℚ) :
    IntegralState :=
  if s.is_updating then s
  else
    let locked := { s with is_updating := true }
    let updated := update_integral locked current_value current_time
    { updated with is_updating := false }

/-- `DailyIntegralSensor._post_process_restore`: after a state restore, if a
`_last_update` was restored and the current local date is strictly later
than its local date, reset the total to 0 and clear `_last_value` and
`_last_update`. The local-date projection of a timestamp is abstracted by
the function argument `local_date`. -/
def post_process_restore_daily (local_date : ℚ → ℤ) (now_date : ℤ)
    (s : IntegralState) : IntegralState :=
  match s.last_update with
  | none => s
  | some lu =>
      if now_date > local_date lu then
        { s with state := 0, last_value := none, last_update := none }
      else s

end IntegralAccumulator

section SnapshotModel

/-- A device-group payload: the map from address to value found under
`{obj: {lastMeasure: ...}}` in a group response. -/
def GroupPayload := String → Option PyVal

/-- The synthetic `calc_data` group written by `async_get_data`: address
"0000" holds the dew point (possibly `None`), "0001" the aerothermal mode
string, "0002" the 0/1 activity flag. Fields are optional because the keys
are inserted one at a time. -/
structure CalcData where
  dew_point : Option ℝ
  aero_mode : Option String
  aero_flag : Option ℤ

/-- A published snapshot: the dict built by `async_get_data`, keyed by the
three logical group names of `const.UUIDS` plus the synthetic `calc_data`
group. -/
structure Snapshot where
  user_sets : GroupPayload
  main_data : GroupPayload
  other_data : GroupPayload
  calc_data : CalcData

/-- The empty payload, i.e. a lastMeasure dict with no addresses. -/
def empty_payload : GroupPayload := fun _ => none

/-- `get_pot_cool`: address "134" of the other_data group. -/
def get_pot_cool (data : Snapshot) : Option PyVal := data.other_data "134"

/-- `get_pot_heat`: address "133" of the other_data group. -/
def get_pot_heat (data : Snapshot) : Option PyVal := data.other_data "133"

/-- `get_acs_temp`: address "11" of the other_data group. -/
def get_acs_temp (data : Snapshot) : Option PyVal := data.other_data "11"

/-- `get_dg1`: address "5183" of the other_data group. -/
def get_dg1 (data : Snapshot) : Option PyVal := data.other_data "5183"

/-- `get_target_heat_temp`: address "170" of the other_data group. -/
def get_target_heat_temp (data : Snapshot) : Option PyVal := data.other_data "170"

/-- `get_return_heat_temp_int`: address "2" of the other_data group. -/
def get_return_heat_temp_int (data : Snapshot) : Option PyVal := data.other_data "2"

/-- `get_is_winter`: address "202" of the other_data group. -/
def get_is_winter (data : Snapshot) : Option PyVal := data.other_data "202"

/-- Modelled from the spec: the `AeroModes` constants of const.py are
missing from src (the const.py provided predates `_get_aero_state`), so the
mode strings follow section 3 of the spec, which lists the variants IDLE,
COOLING, HEATING, ACS and UNKNOWN. -/
def AeroModes.IDLE : String := "IDLE"

/-- Modelled from the spec: see `AeroModes.IDLE`. -/
def AeroModes.COOLING : String := "COOLING"

/-- Modelled from the spec: see `AeroModes.IDLE`. -/
def AeroModes.HEATING : String := "HEATING"

/-- Modelled from the spec: see `AeroModes.IDLE`. -/
def AeroModes.ACS : String := "ACS"

/-- Modelled from the spec: see `AeroModes.IDLE`. -/
def AeroModes.UNKNOWN : String := "UNKNOWN"

/-- Modelled from the spec: `AeroModes.MODE_WAITING.format(waiting_mode)`,
the waiting qualifier appended to ACS, which per the spec names the waiting
mode after the word "waiting". -/
def AeroModes.mode_waiting (waiting_mode : String) : String :=
  " waiting: " ++ waiting_mode

/-- `IntegrationBlueprintApiClient._get_aero_state`. Returns IDLE when
either snapshot is `None` or one of the five required readings is `None`;
IDLE when both powers compare equal to 0; COOLING on positive cooling
power; on positive heating power, ACS (with a waiting qualifier when the
DG1 raw value stringifies to "1") when the return temperature exceeds the
target plus 5, else HEATING; and UNKNOWN otherwise. A TypeError raised by
a comparison propagates as an error. -/
noncomputable def get_aero_state (data prev_data : Option Snapshot) :
    Except PyErr String :=
  match prev_data, data with
  | none, _ => .ok AeroModes.IDLE
  | _, none => .ok AeroModes.IDLE
  | some _, some d =>
    match get_pot_cool d, get_pot_heat d, get_acs_temp d,
        get_target_heat_temp d, get_return_heat_temp_int d with
    | some pot_cool, some pot_heat, some _acs_now, some target_heat,
        some temp_return =>
      let dg1_active : Bool := pyStrOfOpt (get_dg1 d) == "1"
      if pyEq pot_cool (.int 0) && pyEq pot_heat (.int 0) then
        .ok AeroModes.IDLE
      else
        match pyGt pot_cool (.int 0) with
        | .error e => .error e
        | .ok true => .ok AeroModes.COOLING
        | .ok false =>
          match pyGt pot_heat (.int 0) with
          | .error e => .error e
          | .ok true =>
            match pyAddInt target_heat 5 with
            | .error e => .error e
            | .ok threshold =>
              match pyGt temp_return threshold with
              | .error e => .error e
              | .ok true =>
                let mode := AeroModes.ACS
                if dg1_active then
                  let waiting_mode :=
                    if pyTruthyOpt (get_is_winter d) then AeroModes.HEATING
                    else AeroModes.COOLING
                  .ok (mode ++ AeroModes.mode_waiting waiting_mode)
                else .ok mode
              | .ok false => .ok AeroModes.HEATING
          | .ok false => .ok AeroModes.UNKNOWN
    | _, _, _, _, _ => .ok AeroModes.IDLE

/-- The Magnus-formula gamma of `_get_dew_point`:
`log(humidity / 100) + (b * temp) / (c + temp)` with b = 17.625 and
c = 243.04. -/
noncomputable def magnus_gamma (t h : ℝ) : ℝ :=
  Real.log (h / 100) + 17.625 * t / (243.04 + t)

/-- Python `round(x, 1)`: rounding to one decimal place. Python rounds
half-to-even at exact ties; the model rounds half up, which agrees away
from ties. -/
noncomputable def round1 (x : ℝ) : ℝ := (round (x * 10) : ℤ) / 10

/-- `IntegrationBlueprintApiClient._get_dew_point`. Falsy inputs (`None` or
zero) give `None`. Otherwise `math.log(humidity / 100)` is evaluated first:
a str operand raises TypeError, a non-positive argument raises ValueError.
Then `(b * temp) / (c + temp)` raises TypeError for a str temp and
ZeroDivisionError when c + temp is zero, and the final division raises
ZeroDivisionError when b equals gamma. Otherwise the result is the rounded
Magnus dew point. -/
noncomputable def get_dew_point (temp humidity : Option PyVal) :
    Except PyErr (Option ℝ) :=
  if pyTruthyOpt temp = false ∨ pyTruthyOpt humidity = false then .ok none
  else
    match humidity.getD (.int 0) |> pyToReal with
    | .error e => .error e
    | .ok h =>
      if h / 100 ≤ 0 then .error .valueError
      else
        match temp.getD (.int 0) |> pyToReal with
        | .error e => .error e
        | .ok t =>
          if (243.04 : ℝ) + t = 0 then .error .zeroDivisionError
          else
            let gamma := magnus_gamma t h
            if (17.625 : ℝ) - gamma = 0 then .error .zeroDivisionError
            else .ok (some (round1 (243.04 * gamma / (17.625 - gamma))))

end SnapshotModel

section FetchCycle

/-- The uuid of the user_sets group in `const.UUIDS`. -/
def uuid_user_sets : String := "0e115d1a-9786-403b-831d-10ec07b7d906"

/-- The uuid of the main_data group in `const.UUIDS`. -/
def uuid_main_data : String := "be539f06-ed9c-4a84-96c2-0cf2b002ac31"

/-- The uuid of the other_data group in `const.UUIDS`. -/
def uuid_other_data : String := "5f1b91c4-2311-49eb-804c-7d73e6e7fbcc"

/-- Outcomes of the network calls made during one `async_get_data` cycle:
the result of `_get_token` (the login `_api_wrapper` call plus the
`["obj"]["token"]` extraction), and the result of the device-data
`_api_wrapper` call for each group uuid, already projected to its
lastMeasure map. -/
structure FetchEnv where
  get_token : Except PyErr String
  fetch : String → Except PyErr GroupPayload

/-- Snapshot-pair state owned by `IntegrationBlueprintApiClient`:
`self._data` and `self._prev_data`. -/
structure ClientState where
  data : Option Snapshot
  prev_data : Option Snapshot

/-- The body of `async_get_data` up to but excluding the assignments to
`self._prev_data` and `self._data`: acquire a token, fetch the three
groups in `const.UUIDS` order, compute the dew point from main_data
addresses "103" and "102", compute the aerothermal state against the
previous snapshot, and derive the 0/1 activity flag. Any raised exception
short-circuits the whole cycle. -/
noncomputable def fetch_and_enrich (env : FetchEnv) (prev : Option Snapshot) :
    Except PyErr Snapshot :=
  match env.get_token with
  | .error e => .error e
  | .ok _token =>
    match env.fetch uuid_user_sets with
    | .error e => .error e
    | .ok us =>
      match env.fetch uuid_main_data with
      | .error e => .error e
      | .ok md =>
        match env.fetch uuid_other_data with
        | .error e => .error e
        | .ok od =>
          let temp := md "103"
          let humidity := md "102"
          match get_dew_point temp humidity with
          | .error e => .error e
          | .ok dew =>
            let snap_mid : Snapshot :=
              { user_sets := us, main_data := md, other_data := od
                calc_data := { dew_point := dew, aero_mode := none, aero_flag := none } }
            match get_aero_state (some snap_mid) prev with
            | .error e => .error e
            | .ok aero =>
              let flag : ℤ := if aero = AeroModes.IDLE then 0 else 1
              .ok { user_sets := us, main_data := md, other_data := od
                    calc_data :=
                      { dew_point := dew, aero_mode := some aero
                        aero_flag := some flag } }

/-- `IntegrationBlueprintApiClient.async_get_data`: run the fetch-and-enrich
cycle; only when it succeeds, rotate the stored pair (`self._prev_data =
self._data; self._data = data`). On a raised exception the stored pair is
untouched and the exception propagates. -/
noncomputable def async_get_data (st : ClientState) (env : FetchEnv) :
    ClientState × Except PyErr Snapshot :=
  match fetch_and_enrich env st.data with
  | .error e => (st, .error e)
  | .ok snap => ({ data := some snap, prev_data := st.data }, .ok snap)

end FetchCycle

section ApiWrapper

/-- What the awaited request of `_api_wrapper` does: deliver a response
with a status code and a json body outcome, or raise TimeoutError,
aiohttp.ClientError, socket.gaierror, or some other exception. Bodies are
abstracted by a numeric identifier. -/
inductive RequestOutcome where
  | response (status : ℕ) (body : Except PyErr ℕ)
  | raiseTimeout
  | raiseAiohttpClientError
  | raiseGaierror
  | raiseOther

/-- `_verify_response_or_raise`: status 401 or 403 raises
`IntegrationBlueprintApiClientAuthenticationError`; otherwise
`response.raise_for_status()` raises `aiohttp.ClientResponseError` (a
subclass of `aiohttp.ClientError`) for any status of 400 or above. -/
def verify_response_or_raise (status : ℕ) : Except PyErr Unit :=
  if status = 401 ∨ status = 403 then .error .authenticationError
  else if 400 ≤ status then .error .aiohttpClientError
  else .ok ()

/-- The try suite of `_api_wrapper`: perform the request, verify the
response, and decode the body. -/
def api_try_suite : RequestOutcome → Except PyErr ℕ
  | .response status body =>
      match verify_response_or_raise status with
      | .error e => .error e
      | .ok _ => body
  | .raiseTimeout => .error .timeoutError
  | .raiseAiohttpClientError => .error .aiohttpClientError
  | .raiseGaierror => .error .socketGaierror
  | .raiseOther => .error .otherError

/-- The except chain of `_api_wrapper`, by isinstance dispatch:
`except TimeoutError` re-raises CommunicationError; `except
(aiohttp.ClientError, socket.gaierror)` re-raises CommunicationError;
`except Exception` re-raises the plain `IntegrationBlueprintApiClientError`.
The integration error classes subclass Exception directly, so an
AuthenticationError raised inside the try suite is caught by the final
clause. -/
def wrap_raised : PyErr → PyErr
  | .timeoutError => .communicationError
  | .aiohttpClientError => .communicationError
  | .socketGaierror => .communicationError
  | _ => .clientError

/-- `IntegrationBlueprintApiClient._api_wrapper`: run the try suite and map
every raised exception through the except chain. -/
def api_wrapper (ev : RequestOutcome) : Except PyErr ℕ :=
  match api_try_suite ev with
  | .ok b => .ok b
  | .error e => .error (wrap_raised e)

end ApiWrapper

section EntityAccessors

/-- The dict lookup `snapshot.get(uuid_name, {})` on a published snapshot:
the three raw groups plus the synthetic calc_data group, whose entries are
the inserted derived values ("0000" may hold `None`, which the flattened
payload cannot distinguish from an absent key). -/
def snapshot_get (d : Snapshot) : String → Option GroupPayload
  | "user_sets" => some d.user_sets
  | "main_data" => some d.main_data
  | "other_data" => some d.other_data
  | "calc_data" => some fun a =>
      match a with
      | "0000" => d.calc_data.dew_point.map .rfloat
      | "0001" => d.calc_data.aero_mode.map .str
      | "0002" => d.calc_data.aero_flag.map .int
      | _ => none
  | _ => none

/-- `IntegrationBlueprintSwitch.is_on`: reads
`self.coordinator.data.get(uuid, {})...` without a `None` guard, so a
missing coordinator snapshot raises AttributeError (`None.get`). -/
def switch_is_on (coordinator_data : Option Snapshot)
    (uuid_name address : String) : Except PyErr (Option PyVal) :=
  match coordinator_data with
  | none => .error .attributeError
  | some d => .ok (((snapshot_get d uuid_name).getD empty_payload) address)

/-- `IntegrationBlueprintBinarySensor.is_on`: same unguarded read as the
switch. -/
def binary_sensor_is_on (coordinator_data : Option Snapshot)
    (uuid_name address : String) : Except PyErr (Option PyVal) :=
  match coordinator_data with
  | none => .error .attributeError
  | some d => .ok (((snapshot_get d uuid_name).getD empty_payload) address)

/-- `SunthalpyNumber.native_value`: same unguarded read as the switch. -/
def number_native_value (coordinator_data : Option Snapshot)
    (uuid_name address : String) : Except PyErr (Option PyVal) :=
  match coordinator_data with
  | none => .error .attributeError
  | some d => .ok (((snapshot_get d uuid_name).getD empty_payload) address)

/-- `IntegrationBlueprintSensor._get_sensor_data`: guards
`self.coordinator.data is None` and returns `None` in that case. -/
def sensor_get_data (coordinator_data : Option Snapshot)
    (uuid_name address : String) : Option PyVal :=
  match coordinator_data with
  | none => none
  | some d => ((snapshot_get d uuid_name).getD empty_payload) address

end EntityAccessors

section ConcreteInputs

/-- A snapshot with the given other_data payload and nothing else. -/
def snap_of (f : GroupPayload) : Snapshot :=
  { user_sets := empty_payload, main_data := empty_payload, other_data := f
    calc_data := { dew_point := none, aero_mode := none, aero_flag := none } }

/-- A snapshot with no readings at all. -/
def snap_empty : Snapshot := snap_of empty_payload

/-- Other_data readings with all five required addresses present and both
powers zero. -/
def pay_idle : GroupPayload := fun a =>
  if a = "134" then some (.int 0) else if a = "133" then some (.int 0)
  else if a = "11" then some (.int 45) else if a = "170" then some (.int 20)
  else if a = "2" then some (.int 22) else none

/-- Other_data readings with cooling power 5 and heating power 0 but the
ACS temperature (and the two heating temperatures) absent. -/
def pay_cooling_no_acs : GroupPayload := fun a =>
  if a = "134" then some (.int 5) else if a = "133" then some (.int 0) else none

/-- Other_data readings with all five required addresses present, cooling
power 5 and heating power 0. -/
def pay_cooling : GroupPayload := fun a =>
  if a = "134" then some (.int 5) else if a = "133" then some (.int 0)
  else if a = "11" then some (.int 45) else if a = "170" then some (.int 20)
  else if a = "2" then some (.int 22) else none

/-- Other_data readings with cooling 0, heating 3, return temperature 30,
target 20, DG1 raw value 1, and the given winter flag. -/
def pay_acs (winter : ℤ) : GroupPayload := fun a =>
  if a = "134" then some (.int 0) else if a = "133" then some (.int 3)
  else if a = "2" then some (.int 30) else if a = "170" then some (.int 20)
  else if a = "11" then some (.int 45) else if a = "5183" then some (.int 1)
  else if a = "202" then some (.int winter) else none

/-- The snapshot produced by a fetch cycle whose three group payloads are
empty: no dew point, mode IDLE, activity flag 0. -/
def snap_fetched_empty : Snapshot :=
  { user_sets := empty_payload, main_data := empty_payload
    other_data := empty_payload
    calc_data := { dew_point := none, aero_mode := some AeroModes.IDLE
                   aero_flag := some 0 } }

/-- A fetch cycle whose login call raises CommunicationError. -/
def env_login_fails : FetchEnv :=
  { get_token := .error .communicationError, fetch := fun _ => .ok empty_payload }

/-- A fetch cycle that succeeds with empty group payloads. -/
def env_all_empty : FetchEnv :=
  { get_token := .ok "token", fetch := fun _ => .ok empty_payload }

end ConcreteInputs

section ValueLemmas

/-- A value that compares `==`-equal to an int literal is numeric, with that
real value. -/
theorem pyEq_int_true_toReal {a : PyVal} {n : ℤ} (h : pyEq a (.int n) = true) :
    pyToReal a = .ok (n : ℝ) := by
  cases a with
  | int m =>
      simp only [pyEq, decide_eq_true_eq] at h
      simp [pyToReal, h]
  | float p =>
      simp only [pyEq, decide_eq_true_eq] at h
      have : (p : ℝ) = (n : ℝ) := by exact_mod_cast h
      simp [pyToReal, this]
  | rfloat r =>
      simp only [pyEq, decide_eq_true_eq] at h
      simp [pyToReal, h]
  | str s => simp [pyEq] at h

/-- Python `==` against an int literal, for a numeric value, is numeric
equality of the real values. -/
theorem pyEq_int_eq {a : PyVal} {x : ℝ} {n : ℤ} (h : pyToReal a = .ok x) :
    pyEq a (.int n) = decide (x = (n : ℝ)) := by
  cases a with
  | int m =>
      simp only [pyToReal, Except.ok.injEq] at h
      subst h
      simp only [pyEq, decide_eq_decide]
      exact_mod_cast Iff.rfl
  | float p =>
      simp only [pyToReal, Except.ok.injEq] at h
      subst h
      simp only [pyEq, decide_eq_decide]
      exact_mod_cast Iff.rfl
  | rfloat r =>
      simp only [pyToReal, Except.ok.injEq] at h
      subst h
      simp [pyEq]
  | str s => simp [pyToReal] at h

/-- Python `>` on two numeric values is the real comparison. -/
theorem pyGt_eq {a b : PyVal} {x y : ℝ} (ha : pyToReal a = .ok x)
    (hb : pyToReal b = .ok y) : pyGt a b = .ok (decide (y < x)) := by
  cases a <;> cases b <;> simp only [pyToReal] at ha hb <;>
    first
    | exact Except.noConfusion ha
    | exact Except.noConfusion hb
    | (injection ha with ha
       injection hb with hb
       subst ha
       subst hb
       simp only [pyGt, Except.ok.injEq, decide_eq_decide]
       try first
         | exact Iff.rfl
         | exact_mod_cast Iff.rfl)

/-- Python `+` of a numeric value and an int literal is numeric, adding the
real values. -/
theorem pyAddInt_toReal {a : PyVal} {x : ℝ} (n : ℤ) (h : pyToReal a = .ok x) :
    ∃ c, pyAddInt a n = .ok c ∧ pyToReal c = .ok (x + (n : ℝ)) := by
  cases a with
  | int m =>
      simp only [pyToReal, Except.ok.injEq] at h
      subst h
      exact ⟨.int (m + n), rfl, by simp [pyToReal]⟩
  | float p =>
      simp only [pyToReal, Except.ok.injEq] at h
      subst h
      exact ⟨.float (p + (n : ℚ)), rfl, by simp [pyToReal]⟩
  | rfloat r =>
      simp only [pyToReal, Except.ok.injEq] at h
      subst h
      exact ⟨.rfloat (r + (n : ℝ)), rfl, by simp [pyToReal]⟩
  | str s => simp [pyToReal] at h

end ValueLemmas

/-- Claim C1: for every integral accumulator, an observation with no prior
recorded value or timestamp records `last_value` and `last_update` and
leaves the total unchanged; an observation with both recorded adds the
trapezoidal increment `((last_value + current_value) / 2) * elapsed_hours`
to the total and updates `last_value` and `last_update`; and from the
initial state, observations (t = 0, v = 10) then (t = 3600 s, v = 20)
yield total 15. -/
theorem update_integral_spec :
    (∀ (s : IntegralState) (v t : ℚ),
      s.last_value = none ∨ s.last_update = none →
      update_integral s v t =
        { s with last_value := some v, last_update := some t })
    ∧ (∀ (s : IntegralState) (lv lu v t : ℚ),
      s.last_value = some lv → s.last_update = some lu →
      update_integral s v t =
        { s with
          state := s.state + ((lv + v) / 2) * ((t - lu) / 3600)
          last_value := some v
          last_update := some t })
    ∧ (update_integral (update_integral initial_integral_state 10 0) 20 3600).state
        = 15 := by
  refine ⟨?_, ?_, by norm_num [update_integral, initial_integral_state]⟩
  · intro s v t h
    rcases h with h | h
    · rcases hu : s.last_update with _ | lu <;> simp [update_integral, h, hu]
    · rcases hv : s.last_value with _ | lv <;> simp [update_integral, h, hv]
  · intro s lv lu v t hv hu
    simp [update_integral, hv, hu]

/-- Witness for C1 at concrete states. -/
theorem update_integral_spec_witness :
    update_integral ⟨2, none, none, false⟩ 10 0 = ⟨2, some 10, some 0, false⟩
    ∧ update_integral ⟨0, some 10, some 0, false⟩ 20 3600 =
        ⟨0 + ((10 + 20) / 2) * ((3600 - 0) / 3600), some 20, some 3600, false⟩ := by
  constructor
  · exact update_integral_spec.1 ⟨2, none, none, false⟩ 10 0 (Or.inl rfl)
  · exact update_integral_spec.2.1 ⟨0, some 10, some 0, false⟩ 10 0 20 3600 rfl rfl

/-- Claim C8: a trigger arriving while `_is_updating` is set returns without
touching the state; and for a state not currently updating, a concurrent
trigger arriving after the first trigger has set the flag is dropped with
the state unchanged, while the completed first trigger produces exactly the
single locked update. -/
theorem reentrancy_guard_spec :
    (∀ (s : IntegralState) (v t : ℚ), s.is_updating = true →
      async_update_with_lock s v t = s)
    ∧ (∀ (s : IntegralState) (v t u r : ℚ), s.is_updating = false →
      async_update_with_lock { s with is_updating := true } u r =
          { s with is_updating := true }
      ∧ { update_integral { s with is_updating := true } v t with
            is_updating := false } = async_update_with_lock s v t) := by
  refine ⟨?_, ?_⟩
  · intro s v t h
    simp [async_update_with_lock, h]
  · intro s v t u r h
    constructor
    · simp [async_update_with_lock]
    · simp [async_update_with_lock, h]

/-- Witness for C8: a set flag drops the update, a clear flag applies it. -/
theorem reentrancy_guard_spec_witness :
    async_update_with_lock ⟨7, some 3, some 100, true⟩ 1 2 =
        ⟨7, some 3, some 100, true⟩
    ∧ async_update_with_lock ⟨7, some 3, some 100, true⟩ 5 6 =
        ⟨7, some 3, some 100, true⟩ := by
  exact ⟨reentrancy_guard_spec.1 ⟨7, some 3, some 100, true⟩ 1 2 rfl,
    reentrancy_guard_spec.1 ⟨7, some 3, some 100, true⟩ 5 6 rfl⟩

/-- Claim C7: a daily-reset accumulator restored with a `last_update` whose
local date is strictly earlier than the current local date has its total
reset to 0 and `last_value` and `last_update` cleared by the restore
post-processing; when the restored date equals the current date the
restored state is kept unchanged. -/
theorem daily_restore_spec :
    ∀ (local_date : ℚ → ℤ) (now_date : ℤ) (s : IntegralState) (lu : ℚ),
      s.last_update = some lu →
      ((local_date lu < now_date →
        post_process_restore_daily local_date now_date s =
          { s with state := 0, last_value := none, last_update := none })
      ∧ (local_date lu = now_date →
        post_process_restore_daily local_date now_date s = s)) := by
  intro local_date now_date s lu h
  constructor
  · intro hlt
    simp [post_process_restore_daily, h, hlt]
  · intro heq
    simp [post_process_restore_daily, h, heq]

/-- Witness for C7: with the date projection mapping 86400-second days, a
yesterday timestamp is reset and a same-day timestamp is kept. -/
theorem daily_restore_spec_witness :
    post_process_restore_daily (fun q => ⌊q / 86400⌋) 1 ⟨5, some 1, some 42, false⟩ =
        ⟨0, none, none, false⟩
    ∧ post_process_restore_daily (fun q => ⌊q / 86400⌋) 0 ⟨5, some 1, some 42, false⟩ =
        ⟨5, some 1, some 42, false⟩ := by
  constructor
  · exact (daily_restore_spec (fun q => ⌊q / 86400⌋) 1 ⟨5, some 1, some 42, false⟩
      42 rfl).1 (by norm_num)
  · exact (daily_restore_spec (fun q => ⌊q / 86400⌋) 0 ⟨5, some 1, some 42, false⟩
      42 rfl).2 (by norm_num)

/-- Claim C10: with no published coordinator snapshot, the switch,
binary-sensor and number read accessors raise AttributeError, while the
sensor read accessor returns `None`. -/
theorem none_data_accessors_spec :
    ∀ (uuid_name address : String),
      switch_is_on none uuid_name address = .error .attributeError
      ∧ binary_sensor_is_on none uuid_name address = .error .attributeError
      ∧ number_native_value none uuid_name address = .error .attributeError
      ∧ sensor_get_data none uuid_name address = none := by
  intro u a
  exact ⟨rfl, rfl, rfl, rfl⟩

/-- Claim C2 (code bug): on an HTTP 401 or 403 response the
AuthenticationError raised by `_verify_response_or_raise` is caught by the
final `except Exception` clause of `_api_wrapper` and re-raised as the
plain `IntegrationBlueprintApiClientError`, so the caller never observes
AuthenticationError; timeouts and transport errors are reported as
CommunicationError as claimed. -/
theorem api_wrapper_auth_swallowed :
    api_wrapper (.response 401 (.ok 0)) = .error .clientError
    ∧ api_wrapper (.response 403 (.ok 0)) = .error .clientError
    ∧ api_wrapper .raiseTimeout = .error .communicationError
    ∧ api_wrapper .raiseAiohttpClientError = .error .communicationError
    ∧ api_wrapper .raiseGaierror = .error .communicationError
    ∧ api_wrapper .raiseOther = .error .clientError
    ∧ PyErr.clientError ≠ PyErr.authenticationError := by
  exact ⟨rfl, rfl, rfl, rfl, rfl, rfl, by decide⟩

/-- An `Except.ok (decide p)` is `ok true` when `p` holds. -/
theorem ok_decide_eq_true {p : Prop} [Decidable p] (h : p) :
    (Except.ok (decide p) : Except PyErr Bool) = .ok true := by simp [h]

/-- An `Except.ok (decide p)` is `ok false` when `p` fails. -/
theorem ok_decide_eq_false {p : Prop} [Decidable p] (h : ¬p) :
    (Except.ok (decide p) : Except PyErr Bool) = .ok false := by simp [h]

/-- Claim C3: `_get_aero_state` returns IDLE when either snapshot is
absent, when any of the five required readings (cooling power, heating
power, ACS temperature, target heating temperature, return heating
temperature) is missing from the current snapshot, and when both powers
read zero; in particular on the pair (None, None). -/
theorem aero_idle_spec :
    (∀ cur prev : Option Snapshot, cur = none ∨ prev = none →
      get_aero_state cur prev = .ok AeroModes.IDLE)
    ∧ (∀ (d : Snapshot) (prev : Option Snapshot),
      (get_pot_cool d = none ∨ get_pot_heat d = none ∨ get_acs_temp d = none ∨
        get_target_heat_temp d = none ∨ get_return_heat_temp_int d = none) →
      get_aero_state (some d) prev = .ok AeroModes.IDLE)
    ∧ (∀ (d : Snapshot) (prev : Option Snapshot) (vc vh : PyVal),
      get_pot_cool d = some vc → get_pot_heat d = some vh →
      pyEq vc (.int 0) = true → pyEq vh (.int 0) = true →
      get_aero_state (some d) prev = .ok AeroModes.IDLE)
    ∧ get_aero_state none none = .ok AeroModes.IDLE := by
  refine ⟨?_, ?_, ?_, rfl⟩
  · intro cur prev h
    rcases h with h | h
    · subst h
      cases prev <;> rfl
    · subst h
      cases cur <;> rfl
  · intro d prev h
    cases prev with
    | none => rfl
    | some p =>
      rcases hc : get_pot_cool d with _ | vc <;>
        rcases hh : get_pot_heat d with _ | vh <;>
        rcases ha : get_acs_temp d with _ | va <;>
        rcases ht : get_target_heat_temp d with _ | vt <;>
        rcases hr : get_return_heat_temp_int d with _ | vr <;>
        simp_all [get_aero_state]
  · intro d prev vc vh hc hh hec heh
    cases prev with
    | none => rfl
    | some p =>
      rcases ha : get_acs_temp d with _ | va <;>
        rcases ht : get_target_heat_temp d with _ | vt <;>
        rcases hr : get_return_heat_temp_int d with _ | vr <;>
        simp [get_aero_state, hc, hh, ha, ht, hr, hec, heh]

/-- Witness for C3: missing snapshot, missing readings, and both powers
zero all give IDLE. -/
theorem aero_idle_spec_witness :
    get_aero_state none (some snap_empty) = .ok AeroModes.IDLE
    ∧ get_aero_state (some snap_empty) (some snap_empty) = .ok AeroModes.IDLE
    ∧ get_aero_state (some (snap_of pay_idle)) (some snap_empty) = .ok AeroModes.IDLE :=
  ⟨aero_idle_spec.1 none (some snap_empty) (Or.inl rfl),
   aero_idle_spec.2.1 snap_empty (some snap_empty) (Or.inl rfl),
   aero_idle_spec.2.2.1 (snap_of pay_idle) (some snap_empty) (.int 0) (.int 0)
     rfl rfl (by decide) (by decide)⟩

/-- Counterexample to claim C4 as stated: with cooling power 5 and heating
power 0 but the ACS temperature (among others) absent, `_get_aero_state`
returns IDLE, not COOLING, because the missing-reading guard fires first. -/
theorem aero_cooling_counterexample :
    get_aero_state (some (snap_of pay_cooling_no_acs)) (some snap_empty) =
        .ok AeroModes.IDLE
    ∧ AeroModes.IDLE ≠ AeroModes.COOLING := by
  exact ⟨rfl, by decide⟩

/-- Claim C4 (amended): for every snapshot pair with both snapshots present
and the five required readings present, if the cooling power reads 5 and
the heating power reads 0, `_get_aero_state` returns COOLING regardless of
every other field. -/
theorem aero_cooling_spec :
    ∀ (d p : Snapshot) (vc vh : PyVal),
      get_pot_cool d = some vc → pyEq vc (.int 5) = true →
      get_pot_heat d = some vh → pyEq vh (.int 0) = true →
      (get_acs_temp d).isSome = true →
      (get_target_heat_temp d).isSome = true →
      (get_return_heat_temp_int d).isSome = true →
      get_aero_state (some d) (some p) = .ok AeroModes.COOLING := by
  intro d p vc vh hc hec hh heh hacs htgt hret
  obtain ⟨va, ha⟩ := Option.isSome_iff_exists.mp hacs
  obtain ⟨vt, ht⟩ := Option.isSome_iff_exists.mp htgt
  obtain ⟨vr, hr⟩ := Option.isSome_iff_exists.mp hret
  have hcr : pyToReal vc = .ok ((5 : ℤ) : ℝ) := pyEq_int_true_toReal hec
  have hc0 : pyEq vc (.int 0) = false := by
    rw [pyEq_int_eq hcr]
    simp only [decide_eq_false_iff_not]
    norm_num
  have hgt : pyGt vc (.int 0) = .ok true := by
    rw [pyGt_eq hcr (show pyToReal (.int 0) = .ok ((0 : ℤ) : ℝ) from rfl)]
    exact ok_decide_eq_true (by norm_num)
  simp [get_aero_state, hc, hh, ha, ht, hr, hc0, hgt]

/-- Witness for C4 at a concrete snapshot with all required readings. -/
theorem aero_cooling_spec_witness :
    get_aero_state (some (snap_of pay_cooling)) (some snap_empty) =
      .ok AeroModes.COOLING :=
  aero_cooling_spec (snap_of pay_cooling) snap_empty (.int 5) (.int 0)
    rfl (by decide) rfl (by decide) rfl rfl rfl

/-- Claim C5: with both snapshots and all required readings present,
cooling power 0, heating power 3, return temperature 30, target 20, a DG1
raw value stringifying to "1", and the winter flag truthy, the mode is ACS
with the waiting qualifier naming HEATING; with the winter flag falsy the
qualifier names COOLING. -/
theorem aero_acs_waiting_spec :
    ∀ (d p : Snapshot) (vc vh vr vt : PyVal),
      get_pot_cool d = some vc → pyEq vc (.int 0) = true →
      get_pot_heat d = some vh → pyEq vh (.int 3) = true →
      get_return_heat_temp_int d = some vr → pyEq vr (.int 30) = true →
      get_target_heat_temp d = some vt → pyEq vt (.int 20) = true →
      (get_acs_temp d).isSome = true →
      pyStrOfOpt (get_dg1 d) = "1" →
      ((pyTruthyOpt (get_is_winter d) = true →
        get_aero_state (some d) (some p) =
          .ok (AeroModes.ACS ++ AeroModes.mode_waiting AeroModes.HEATING))
      ∧ (pyTruthyOpt (get_is_winter d) = false →
        get_aero_state (some d) (some p) =
          .ok (AeroModes.ACS ++ AeroModes.mode_waiting AeroModes.COOLING))) := by
  intro d p vc vh vr vt hc hec hh heh hr her ht het hacs hdg1
  obtain ⟨va, ha⟩ := Option.isSome_iff_exists.mp hacs
  have hcr : pyToReal vc = .ok ((0 : ℤ) : ℝ) := pyEq_int_true_toReal hec
  have hhr : pyToReal vh = .ok ((3 : ℤ) : ℝ) := pyEq_int_true_toReal heh
  have hrr : pyToReal vr = .ok ((30 : ℤ) : ℝ) := pyEq_int_true_toReal her
  have htr : pyToReal vt = .ok ((20 : ℤ) : ℝ) := pyEq_int_true_toReal het
  have hh0 : pyEq vh (.int 0) = false := by
    rw [pyEq_int_eq hhr]
    simp only [decide_eq_false_iff_not]
    norm_num
  have hgtc : pyGt vc (.int 0) = .ok false := by
    rw [pyGt_eq hcr (show pyToReal (.int 0) = .ok ((0 : ℤ) : ℝ) from rfl)]
    exact ok_decide_eq_false (by norm_num)
  have hgth : pyGt vh (.int 0) = .ok true := by
    rw [pyGt_eq hhr (show pyToReal (.int 0) = .ok ((0 : ℤ) : ℝ) from rfl)]
    exact ok_decide_eq_true (by norm_num)
  obtain ⟨c5, hadd, hc5⟩ := pyAddInt_toReal (a := vt) 5 htr
  have hgtr : pyGt vr c5 = .ok true := by
    rw [pyGt_eq hrr hc5]
    exact ok_decide_eq_true (by norm_num)
  constructor
  · intro hw
    simp [get_aero_state, hc, hh, ha, ht, hr, hec, hh0, hgtc, hgth, hadd,
      hgtr, hdg1, hw]
  · intro hw
    simp [get_aero_state, hc, hh, ha, ht, hr, hec, hh0, hgtc, hgth, hadd,
      hgtr, hdg1, hw]

/-- Witness for C5 at a concrete snapshot, winter flag set and unset. -/
theorem aero_acs_waiting_spec_witness :
    get_aero_state (some (snap_of (pay_acs 1))) (some snap_empty) =
        .ok (AeroModes.ACS ++ AeroModes.mode_waiting AeroModes.HEATING)
    ∧ get_aero_state (some (snap_of (pay_acs 0))) (some snap_empty) =
        .ok (AeroModes.ACS ++ AeroModes.mode_waiting AeroModes.COOLING) :=
  ⟨(aero_acs_waiting_spec (snap_of (pay_acs 1)) snap_empty (.int 0) (.int 3)
      (.int 30) (.int 20) rfl (by decide) rfl (by decide) rfl (by decide)
      rfl (by decide) rfl (by decide)).1 (by decide),
   (aero_acs_waiting_spec (snap_of (pay_acs 0)) snap_empty (.int 0) (.int 3)
      (.int 30) (.int 20) rfl (by decide) rfl (by decide) rfl (by decide)
      rfl (by decide) rfl (by decide)).2 (by decide)⟩

section DewPointLemmas

/-- The Magnus gamma at 20 degrees and 50 percent humidity, bounded using
the decimal bounds on `log 2`. -/
theorem magnus_gamma_2050_bounds :
    (0.6469531841 : ℝ) < magnus_gamma ((20 : ℚ) : ℝ) ((50 : ℚ) : ℝ)
    ∧ magnus_gamma ((20 : ℚ) : ℝ) ((50 : ℚ) : ℝ) < 0.6469531847 := by
  have hlog : Real.log (((50 : ℚ) : ℝ) / 100) = -Real.log 2 := by
    rw [show (((50 : ℚ) : ℝ) / 100) = (2 : ℝ)⁻¹ by push_cast; norm_num,
      Real.log_inv]
  have harith : 17.625 * ((20 : ℚ) : ℝ) / (243.04 + ((20 : ℚ) : ℝ)) =
      352.5 / 263.04 := by push_cast; norm_num
  have h1 := Real.log_two_gt_d9
  have h2 := Real.log_two_lt_d9
  unfold magnus_gamma
  rw [hlog, harith]
  constructor <;> nlinarith

/-- The formula branch of `_get_dew_point` for exact rational float inputs:
when the temperature is nonzero, the humidity positive, and neither
division degenerates, the result is the rounded Magnus dew point. -/
theorem get_dew_point_formula (t h : ℚ) (ht0 : t ≠ 0) (hh0 : 0 < h)
    (hden : (243.04 : ℝ) + (t : ℝ) ≠ 0)
    (hgam : (17.625 : ℝ) - magnus_gamma (t : ℝ) (h : ℝ) ≠ 0) :
    get_dew_point (some (.float t)) (some (.float h)) =
      .ok (some (round1 (243.04 * magnus_gamma (t : ℝ) (h : ℝ) /
        (17.625 - magnus_gamma (t : ℝ) (h : ℝ))))) := by
  have htr : pyTruthy (.float t) = true := by simp [pyTruthy, ht0]
  have hhr : pyTruthy (.float h) = true := by simp [pyTruthy, ne_of_gt hh0]
  have hcond : ¬(pyTruthyOpt (some (.float t)) = false
      ∨ pyTruthyOpt (some (.float h)) = false) := by
    simp [pyTruthyOpt, htr, hhr]
  have hpos : ¬((h : ℝ) / 100 ≤ 0) := by
    push_neg
    positivity
  unfold get_dew_point
  rw [if_neg hcond]
  simp only [Option.getD, pyToReal]
  rw [if_neg hpos, if_neg hden, if_neg hgam]

end DewPointLemmas

/-- Claim C6 (amended): `_get_dew_point` returns `None` when either input
is missing or zero-falsy; for nonzero numeric inputs with positive
humidity, a temperature distinct from -243.04 and gamma distinct from
17.625, it returns round(c * gamma / (b - gamma), 1); in particular
(20, 50) gives 9.3 and (0, 0) gives `None`. A negative humidity instead
raises ValueError from `math.log`, which is why the claim as stated is
amended. -/
theorem dew_point_formula_spec :
    (∀ t h : Option PyVal, pyTruthyOpt t = false ∨ pyTruthyOpt h = false →
      get_dew_point t h = .ok none)
    ∧ (∀ t h : ℚ, t ≠ 0 → 0 < h → (243.04 : ℝ) + (t : ℝ) ≠ 0 →
      (17.625 : ℝ) - magnus_gamma (t : ℝ) (h : ℝ) ≠ 0 →
      get_dew_point (some (.float t)) (some (.float h)) =
        .ok (some (round1 (243.04 * magnus_gamma (t : ℝ) (h : ℝ) /
          (17.625 - magnus_gamma (t : ℝ) (h : ℝ))))))
    ∧ get_dew_point (some (.float 20)) (some (.float 50)) = .ok (some 9.3)
    ∧ get_dew_point (some (.float 0)) (some (.float 0)) = .ok none := by
  have hb := magnus_gamma_2050_bounds
  have hd : (0 : ℝ) < 17.625 - magnus_gamma ((20 : ℚ) : ℝ) ((50 : ℚ) : ℝ) := by
    linarith [hb.2]
  refine ⟨?_, get_dew_point_formula, ?_, ?_⟩
  · intro t h hth
    unfold get_dew_point
    rw [if_pos hth]
  · rw [get_dew_point_formula 20 50 (by norm_num) (by norm_num)
      (by push_cast; norm_num) (ne_of_gt hd)]
    have hy_lo : (9.25 : ℝ) ≤ 243.04 * magnus_gamma ((20 : ℚ) : ℝ) ((50 : ℚ) : ℝ) /
        (17.625 - magnus_gamma ((20 : ℚ) : ℝ) ((50 : ℚ) : ℝ)) := by
      rw [le_div_iff₀ hd]
      nlinarith [hb.1]
    have hy_hi : 243.04 * magnus_gamma ((20 : ℚ) : ℝ) ((50 : ℚ) : ℝ) /
        (17.625 - magnus_gamma ((20 : ℚ) : ℝ) ((50 : ℚ) : ℝ)) < 9.35 := by
      rw [div_lt_iff₀ hd]
      nlinarith [hb.2]
    have hround : round (243.04 * magnus_gamma ((20 : ℚ) : ℝ) ((50 : ℚ) : ℝ) /
        (17.625 - magnus_gamma ((20 : ℚ) : ℝ) ((50 : ℚ) : ℝ)) * 10) = 93 := by
      rw [round_eq]
      refine Int.floor_eq_iff.mpr ⟨?_, ?_⟩
      · push_cast
        linarith
      · push_cast
        linarith
    unfold round1
    rw [hround]
    norm_num
  · exact (by
      unfold get_dew_point
      rw [if_pos (by simp [pyTruthyOpt, pyTruthy])])

/-- Witness for C6: falsy input gives `None`, and the formula branch fires
at (20, 50). -/
theorem dew_point_formula_spec_witness :
    get_dew_point (some (.float 0)) (some (.float 50)) = .ok none
    ∧ get_dew_point (some (.float 20)) (some (.float 50)) =
        .ok (some (round1 (243.04 * magnus_gamma ((20 : ℚ) : ℝ) ((50 : ℚ) : ℝ) /
          (17.625 - magnus_gamma ((20 : ℚ) : ℝ) ((50 : ℚ) : ℝ))))) := by
  constructor
  · exact dew_point_formula_spec.1 (some (.float 0)) (some (.float 50))
      (Or.inl (by decide))
  · exact dew_point_formula_spec.2.1 20 50 (by norm_num) (by norm_num)
      (by push_cast; norm_num)
      (ne_of_gt (by linarith [magnus_gamma_2050_bounds.2]))

/-- Counterexample to claim C6 as stated: at temperature 20 and humidity
-5 (both truthy), `_get_dew_point` raises ValueError from `math.log` of a
negative number instead of returning a rounded dew point. -/
theorem dew_point_negative_humidity_raises :
    get_dew_point (some (.float 20)) (some (.float (-5))) = .error .valueError := by
  have hcond : ¬(pyTruthyOpt (some (.float 20)) = false
      ∨ pyTruthyOpt (some (.float (-5))) = false) := by decide
  have hle : ((-5 : ℚ) : ℝ) / 100 ≤ 0 := by
    push_cast
    norm_num
  unfold get_dew_point
  rw [if_neg hcond]
  simp only [Option.getD, pyToReal]
  rw [if_pos hle]

/-- Claim C9: `async_get_data` leaves the stored snapshot pair untouched
whenever any step of the cycle raises (the token acquisition, any of the
three group fetches in order, or the enrichment), and on success rotates
the pair: the old current snapshot becomes previous and the enriched
snapshot becomes current. -/
theorem fetch_atomicity_spec :
    (∀ (st : ClientState) (env : FetchEnv) (e : PyErr),
      fetch_and_enrich env st.data = .error e →
      async_get_data st env = (st, .error e))
    ∧ (∀ (st : ClientState) (env : FetchEnv) (e : PyErr),
      env.get_token = .error e → fetch_and_enrich env st.data = .error e)
    ∧ (∀ (st : ClientState) (env : FetchEnv) (tok : String) (e : PyErr),
      env.get_token = .ok tok → env.fetch uuid_user_sets = .error e →
      fetch_and_enrich env st.data = .error e)
    ∧ (∀ (st : ClientState) (env : FetchEnv) (tok : String) (us : GroupPayload)
        (e : PyErr),
      env.get_token = .ok tok → env.fetch uuid_user_sets = .ok us →
      env.fetch uuid_main_data = .error e →
      fetch_and_enrich env st.data = .error e)
    ∧ (∀ (st : ClientState) (env : FetchEnv) (tok : String)
        (us md : GroupPayload) (e : PyErr),
      env.get_token = .ok tok → env.fetch uuid_user_sets = .ok us →
      env.fetch uuid_main_data = .ok md → env.fetch uuid_other_data = .error e →
      fetch_and_enrich env st.data = .error e)
    ∧ (∀ (st : ClientState) (env : FetchEnv) (snap : Snapshot),
      fetch_and_enrich env st.data = .ok snap →
      async_get_data st env =
        ({ data := some snap, prev_data := st.data }, .ok snap)) := by
  refine ⟨?_, ?_, ?_, ?_, ?_, ?_⟩
  · intro st env e h
    simp [async_get_data, h]
  · intro st env e h
    simp [fetch_and_enrich, h]
  · intro st env tok e h1 h2
    simp [fetch_and_enrich, h1, h2]
  · intro st env tok us e h1 h2 h3
    simp [fetch_and_enrich, h1, h2, h3]
  · intro st env tok us md e h1 h2 h3 h4
    simp [fetch_and_enrich, h1, h2, h3, h4]
  · intro st env snap h
    simp [async_get_data, h]

/-- Witness for C9: a failed login leaves the pair untouched; a successful
cycle with empty payloads publishes the enriched snapshot and rotates. -/
theorem fetch_atomicity_spec_witness :
    async_get_data ⟨none, none⟩ env_login_fails =
        (⟨none, none⟩, .error .communicationError)
    ∧ async_get_data ⟨none, none⟩ env_all_empty =
        (⟨some snap_fetched_empty, none⟩, .ok snap_fetched_empty) := by
  constructor
  · exact fetch_atomicity_spec.1 ⟨none, none⟩ env_login_fails
      .communicationError rfl
  · exact fetch_atomicity_spec.2.2.2.2.2 ⟨none, none⟩ env_all_empty
      snap_fetched_empty rfl
